import Mathlib

/-!
Shallow embedding of `berlin_poi.py`: a command-line tool that geocodes a
Berlin street address, queries a map-data service for amenity-tagged nodes
around the resolved point, filters them by haversine distance and by the
presence of a name tag, and renders the survivors on a folium map.

External collaborators (geopy geocoder, Overpass API, folium) are modelled
as inputs: the geocoder is a function from query strings to a result, the
Overpass call is an `Except` value (error = raised exception), and the
folium map is a record of the markers, circle and save path the code builds.
Python floats are idealised as real numbers.
-/

open scoped Classical

noncomputable section

/-- A geopy location: has `.latitude` and `.longitude` attributes. -/
structure Location where
  latitude : ℝ
  longitude : ℝ

/-- Embedding of `get_coordinates` (berlin_poi.py lines 10-20).  The geopy
collaborator `geocode` maps a query string to either an exception
(`.error`) or an optional match.  The Python code appends
", Berlin, Germany" to the address, returns the match's coordinates, and
on no match raises `ValueError`, which its own `except` catches, so both
the no-match case and the collaborator-error case yield `(None, None)`,
modelled as `none`. -/
def get_coordinates (geocode : String → Except String (Option Location))
    (address : String) : Option (ℝ × ℝ) :=
  match geocode (address ++ ", Berlin, Germany") with
  | .ok (some location) => some (location.latitude, location.longitude)
  | .ok none => none
  | .error _ => none

/-- `math.radians`: degrees to radians. -/
def radians (x : ℝ) : ℝ := x * (Real.pi / 180)

/-- `math.atan2 y x` (two-argument arctangent, standard C semantics;
signed zeros do not exist in `ℝ`, so `atan2 0 0 = 0`). -/
def atan2 (y x : ℝ) : ℝ :=
  if 0 < x then Real.arctan (y / x)
  else if x < 0 then
    (if 0 ≤ y then Real.arctan (y / x) + Real.pi
     else Real.arctan (y / x) - Real.pi)
  else
    (if 0 < y then Real.pi / 2
     else if y < 0 then -(Real.pi / 2)
     else 0)

/-- Embedding of `haversine_distance` (berlin_poi.py lines 22-36). -/
def haversine_distance (lat1 lon1 lat2 lon2 : ℝ) : ℝ :=
  let R : ℝ := 6371000
  let lat1_rad := radians lat1
  let lon1_rad := radians lon1
  let lat2_rad := radians lat2
  let lon2_rad := radians lon2
  let dlat := lat2_rad - lat1_rad
  let dlon := lon2_rad - lon1_rad
  let a := Real.sin (dlat / 2) ^ 2 +
    Real.cos lat1_rad * Real.cos lat2_rad * Real.sin (dlon / 2) ^ 2
  let c := 2 * atan2 (Real.sqrt a) (Real.sqrt (1 - a))
  let distance := R * c
  distance

/-- An Overpass node: coordinates and a tag dictionary, modelled as an
association list (Python dict keys are unique; `lookup` finds the first
binding). -/
structure Node where
  lat : ℝ
  lon : ℝ
  tags : List (String × String)

/-- One POI dictionary as built by `find_points_of_interest`. -/
structure Poi where
  name : String
  type : String
  latitude : ℝ
  longitude : ℝ
  distance_m : ℝ

/-- Python `round(x, 2)` idealised over `ℝ` (ties, which Python resolves
to even, do not arise in any claim). -/
def round2 (x : ℝ) : ℝ := ((round (x * 100) : ℤ) : ℝ) / 100

/-- The `for node in result.nodes` loop of `find_points_of_interest`
(berlin_poi.py lines 51-68): keep a node when its tags contain "amenity",
its haversine distance from the query point is at most `radius`, and its
name tag (defaulted to "Unnamed POI") differs from "Unnamed POI";
survivors are appended in iteration order. -/
def processNodes (lat lon radius : ℝ) : List Node → List Poi
  | [] => []
  | node :: rest =>
    if (node.tags.lookup "amenity").isSome then
      let poi_lat := node.lat
      let poi_lon := node.lon
      let distance := haversine_distance lat lon poi_lat poi_lon
      if distance ≤ radius then
        let poi_name := (node.tags.lookup "name").getD "Unnamed POI"
        if poi_name ≠ "Unnamed POI" then
          ⟨poi_name, (node.tags.lookup "amenity").getD "",
            poi_lat, poi_lon, round2 distance⟩ :: processNodes lat lon radius rest
        else
          processNodes lat lon radius rest
      else
        processNodes lat lon radius rest
    else
      processNodes lat lon radius rest

/-- Embedding of `find_points_of_interest` (berlin_poi.py lines 38-71).
The Overpass collaborator's response is an input: `.error` models any
exception raised by `overpass.query` (network failure, malformed
response, query rejection), caught by the `except` clause which returns
`[]`; `.ok nodes` models a successful response with node list `nodes`. -/
def find_points_of_interest (lat lon radius : ℝ)
    (result : Except String (List Node)) : List Poi :=
  match result with
  | .error _ => []
  | .ok nodes => processNodes lat lon radius nodes

/-- The per-node decision of the filter loop, as an `Option`-valued map;
`processNodes` is its `filterMap` (proved in
`processNodes_eq_filterMap`). -/
def poiOf (lat lon radius : ℝ) (node : Node) : Option Poi :=
  if (node.tags.lookup "amenity").isSome
      ∧ haversine_distance lat lon node.lat node.lon ≤ radius
      ∧ (node.tags.lookup "name").getD "Unnamed POI" ≠ "Unnamed POI" then
    some ⟨(node.tags.lookup "name").getD "Unnamed POI",
      (node.tags.lookup "amenity").getD "",
      node.lat, node.lon,
      round2 (haversine_distance lat lon node.lat node.lon)⟩
  else
    none

/-- The popup content of a folium marker.  Python interpolates values
into an f-string; the model keeps the interpolated values structured. -/
inductive PopupInfo where
  | startingPoint (address : String)
  | poiEntry (name : String) (category : String) (distance_m : ℝ)

/-- A `folium.Marker` with its `folium.Icon` styling. -/
structure Marker where
  location : ℝ × ℝ
  popup : PopupInfo
  color : String
  icon : String

/-- A `folium.Circle`. -/
structure MapCircle where
  location : ℝ × ℝ
  radius : ℝ
  color : String
  fill : Bool
  fill_opacity : ℝ

/-- The folium map built by `create_map`: centre, zoom, the markers and
circles added to it, and the path `m.save` writes. -/
structure FoliumMap where
  center : ℝ × ℝ
  zoom_start : ℕ
  markers : List Marker
  circles : List MapCircle
  savedTo : String

/-- Embedding of `create_map` (berlin_poi.py lines 73-104): a red origin
marker, one blue marker per POI in order, and a single green circle whose
radius is the literal 250 (the source comment reads "Add a circle to show
the 250m radius"); the artifact is saved to "poi_map.html". -/
def create_map (lat lon : ℝ) (pois : List Poi) (address : String) : FoliumMap :=
  ⟨(lat, lon), 17,
    ⟨(lat, lon), .startingPoint address, "red", "info-sign"⟩ ::
      pois.map (fun poi =>
        ⟨(poi.latitude, poi.longitude),
          .poiEntry poi.name poi.type poi.distance_m, "blue", "star"⟩),
    [⟨(lat, lon), 250, "green", true, 0.1⟩],
    "poi_map.html"⟩

/-- How a run of `main` ends. -/
inductive Outcome where
  | addressNotFound
  | noResults
  | completed
deriving DecidableEq

/-- Observable effects of one run of `main`: whether the POI query stage
was reached, the folium map built by `create_map` (`none` when
`create_map` was never invoked, hence no artifact file written), and the
terminal outcome. -/
structure RunResult where
  poiQueried : Bool
  rendered : Option FoliumMap
  outcome : Outcome

/-- Embedding of `main` (berlin_poi.py lines 106-132).  The two network
collaborators are inputs: `geocode` for the geopy call and
`overpassResult` for the Overpass response.  When `get_coordinates`
yields no coordinates, `main` returns before the POI query; when the POI
list is empty, it returns before `create_map`; otherwise it builds and
saves the map. -/
def main (geocode : String → Except String (Option Location))
    (overpassResult : Except String (List Node)) (address : String) : RunResult :=
  match get_coordinates geocode address with
  | none => ⟨false, none, .addressNotFound⟩
  | some (lat, lon) =>
    let pois := find_points_of_interest lat lon 250 overpassResult
    if pois.isEmpty then ⟨true, none, .noResults⟩
    else ⟨true, some (create_map lat lon pois address), .completed⟩

end

/-! ## Helper lemmas -/

/-- `haversine_distance` with its `let` chain zeta-reduced. -/
theorem haversine_def (lat1 lon1 lat2 lon2 : ℝ) :
    haversine_distance lat1 lon1 lat2 lon2 =
      6371000 * (2 * atan2
        (Real.sqrt (Real.sin ((radians lat2 - radians lat1) / 2) ^ 2 +
          Real.cos (radians lat1) * Real.cos (radians lat2) *
            Real.sin ((radians lon2 - radians lon1) / 2) ^ 2))
        (Real.sqrt (1 - (Real.sin ((radians lat2 - radians lat1) / 2) ^ 2 +
          Real.cos (radians lat1) * Real.cos (radians lat2) *
            Real.sin ((radians lon2 - radians lon1) / 2) ^ 2)))) :=
  rfl

/-- The haversine distance from a point to itself is zero. -/
theorem haversine_self (lat lon : ℝ) : haversine_distance lat lon lat lon = 0 := by
  rw [haversine_def]
  norm_num [atan2, Real.arctan_zero]

/-- The haversine intermediate `a` is symmetric in the two points. -/
theorem haversine_comm (lat1 lon1 lat2 lon2 : ℝ) :
    haversine_distance lat1 lon1 lat2 lon2 = haversine_distance lat2 lon2 lat1 lon1 := by
  rw [haversine_def, haversine_def]
  have h1 : Real.sin ((radians lat1 - radians lat2) / 2) ^ 2 =
      Real.sin ((radians lat2 - radians lat1) / 2) ^ 2 := by
    rw [show radians lat1 - radians lat2 = -(radians lat2 - radians lat1) from by ring,
      neg_div, Real.sin_neg, neg_sq]
  have h2 : Real.sin ((radians lon1 - radians lon2) / 2) ^ 2 =
      Real.sin ((radians lon2 - radians lon1) / 2) ^ 2 := by
    rw [show radians lon1 - radians lon2 = -(radians lon2 - radians lon1) from by ring,
      neg_div, Real.sin_neg, neg_sq]
  rw [h1, h2, mul_comm (Real.cos (radians lat2)) (Real.cos (radians lat1))]

/-- Concrete anchor: from the null island origin to the point 90 degrees
east on the equator the haversine distance is a quarter of the Earth
circumference. -/
theorem haversine_zero_ninety :
    haversine_distance 0 0 0 90 = 6371000 * (Real.pi / 2) := by
  rw [haversine_def]
  have hr0 : radians 0 = 0 := by simp [radians]
  have hr90 : radians 90 = Real.pi / 2 := by rw [radians]; ring
  rw [hr0, hr90]
  have hA : Real.sin ((0 - 0 : ℝ) / 2) ^ 2 +
      Real.cos 0 * Real.cos 0 * Real.sin ((Real.pi / 2 - 0) / 2) ^ 2 = 1 / 2 := by
    rw [show ((Real.pi / 2 - 0) / 2 : ℝ) = Real.pi / 4 from by ring, Real.sin_pi_div_four]
    rw [div_pow, Real.sq_sqrt (by norm_num : (0:ℝ) ≤ 2)]
    norm_num
  rw [hA]
  have hpos : (0:ℝ) < Real.sqrt (1 / 2) := Real.sqrt_pos.mpr (by norm_num)
  have hone : Real.sqrt ((1:ℝ) - 1 / 2) = Real.sqrt (1 / 2) := by norm_num
  rw [hone, atan2, if_pos hpos, div_self (ne_of_gt hpos), Real.arctan_one]
  ring

/-- The positive-distance instance used to exercise the over-radius
filter at a concrete input. -/
theorem haversine_zero_ninety_pos : 0 < haversine_distance 0 0 0 90 := by
  rw [haversine_zero_ninety]
  positivity

/-- The node-processing loop is the order-preserving `filterMap` of the
per-node decision `poiOf`. -/
theorem processNodes_eq_filterMap (lat lon radius : ℝ) (nodes : List Node) :
    processNodes lat lon radius nodes = nodes.filterMap (poiOf lat lon radius) := by
  induction nodes with
  | nil => simp [processNodes]
  | cons node rest ih =>
    by_cases h1 : (node.tags.lookup "amenity").isSome
    · by_cases h2 : haversine_distance lat lon node.lat node.lon ≤ radius
      · by_cases h3 : (node.tags.lookup "name").getD "Unnamed POI" ≠ "Unnamed POI"
        · simp [processNodes, poiOf, h1, h2, h3, ih]
        · simp [processNodes, poiOf, h1, h2, h3, ih]
      · simp [processNodes, poiOf, h1, h2, ih]
    · simp [processNodes, poiOf, h1, ih]

/-- A node farther away than the radius is rejected by the filter. -/
theorem poiOf_none_of_far (lat lon radius : ℝ) (n : Node)
    (h : radius < haversine_distance lat lon n.lat n.lon) :
    poiOf lat lon radius n = none := by
  unfold poiOf
  exact if_neg (fun hc => absurd hc.2.1 (not_le.mpr h))

/-- A node with no name tag is rejected by the filter. -/
theorem poiOf_none_of_no_name (lat lon radius : ℝ) (n : Node)
    (h : n.tags.lookup "name" = none) :
    poiOf lat lon radius n = none := by
  unfold poiOf
  refine if_neg (fun hc => hc.2.2 ?_)
  rw [h]
  rfl

/-- A node whose name tag is literally "Unnamed POI" is rejected by the
filter, because the default for a missing name is the same string. -/
theorem poiOf_none_of_sentinel_name (lat lon radius : ℝ) (n : Node)
    (h : n.tags.lookup "name" = some "Unnamed POI") :
    poiOf lat lon radius n = none := by
  unfold poiOf
  refine if_neg (fun hc => hc.2.2 ?_)
  rw [h]
  rfl

/-- Deleting a rejected node anywhere in the response leaves the output
unchanged. -/
theorem find_ok_erase_of_poiOf_none (lat lon radius : ℝ) (pre post : List Node)
    (n : Node) (h : poiOf lat lon radius n = none) :
    find_points_of_interest lat lon radius (.ok (pre ++ n :: post)) =
      find_points_of_interest lat lon radius (.ok (pre ++ post)) := by
  simp [find_points_of_interest, processNodes_eq_filterMap, List.filterMap_append,
    List.filterMap_cons, h]

/-! ## Claims -/

/-- Claim C2: for every run in which the geocoding step fails (the
collaborator returns no match, or raises an error — both make
`get_coordinates` yield `none`), the run aborts: the POI query is never
issued, rendering is never invoked, and no artifact is written. -/
theorem C2_geocode_failure_aborts (geocode : String → Except String (Option Location))
    (overpassResult : Except String (List Node)) (address : String)
    (h : get_coordinates geocode address = none) :
    main geocode overpassResult address = ⟨false, none, Outcome.addressNotFound⟩ := by
  simp [main, h]

/-- Claim C2 witness: both failure modes of the collaborator (no match,
and a raised error) at the address of end-to-end scenario B. -/
theorem C2_geocode_failure_aborts_witness :
    main (fun _ => Except.ok none) (Except.ok []) "Nonexistent Street 9999" =
        ⟨false, none, Outcome.addressNotFound⟩ ∧
      main (fun _ => Except.error "network down") (Except.ok []) "Nonexistent Street 9999" =
        ⟨false, none, Outcome.addressNotFound⟩ :=
  ⟨C2_geocode_failure_aborts _ _ _ rfl, C2_geocode_failure_aborts _ _ _ rfl⟩

/-- Claim C3: on any map-data collaborator error,
`find_points_of_interest` does not propagate it: it returns the empty
sequence, and consequently a run with such a response never renders a
map and never reaches the completed outcome. -/
theorem C3_overpass_error_returns_empty (lat lon radius : ℝ) (e : String)
    (geocode : String → Except String (Option Location)) (address : String) :
    find_points_of_interest lat lon radius (.error e) = [] ∧
      (main geocode (.error e) address).rendered = none ∧
      (main geocode (.error e) address).outcome ≠ Outcome.completed := by
  refine ⟨rfl, ?_⟩
  cases h : get_coordinates geocode address with
  | none => simp [main, h]
  | some p =>
    obtain ⟨la, lo⟩ := p
    simp [main, h, find_points_of_interest]

/-- Claim C4: when geocoding succeeds but zero POIs pass filtering, the
run ends in the aborted `noResults` outcome: `create_map` is never
invoked and no artifact is produced. -/
theorem C4_zero_pois_aborts (geocode : String → Except String (Option Location))
    (overpassResult : Except String (List Node)) (address : String) (la lo : ℝ)
    (h1 : get_coordinates geocode address = some (la, lo))
    (h2 : find_points_of_interest la lo 250 overpassResult = []) :
    main geocode overpassResult address = ⟨true, none, Outcome.noResults⟩ := by
  simp [main, h1, h2]

/-- Claim C4 witness: end-to-end scenario C, geocoding succeeds and the
map-data collaborator returns zero candidates. -/
theorem C4_zero_pois_aborts_witness :
    main (fun _ => Except.ok (some ⟨52.52, 13.405⟩)) (Except.ok []) "Museumsinsel 1" =
      ⟨true, none, Outcome.noResults⟩ :=
  C4_zero_pois_aborts _ _ _ 52.52 13.405 rfl rfl

/-- Claim C5: for every valid GeoPoint (latitude in `[-90, 90]`,
longitude in `[-180, 180]`), the haversine distance between the point
and itself is exactly zero. -/
theorem C5_distance_self_zero (lat lon : ℝ)
    (hlat : -90 ≤ lat ∧ lat ≤ 90) (hlon : -180 ≤ lon ∧ lon ≤ 180) :
    haversine_distance lat lon lat lon = 0 :=
  haversine_self lat lon

/-- Claim C5 witness at the Berlin city-centre point (52.52, 13.405). -/
theorem C5_distance_self_zero_witness :
    ((-90 ≤ (52.52 : ℝ) ∧ (52.52 : ℝ) ≤ 90) ∧
        (-180 ≤ (13.405 : ℝ) ∧ (13.405 : ℝ) ≤ 180)) ∧
      haversine_distance 52.52 13.405 52.52 13.405 = 0 :=
  ⟨⟨⟨by norm_num, by norm_num⟩, ⟨by norm_num, by norm_num⟩⟩,
    C5_distance_self_zero 52.52 13.405 ⟨by norm_num, by norm_num⟩ ⟨by norm_num, by norm_num⟩⟩

/-- Claim C6: the haversine distance is symmetric in its two points, for
all valid pairs. -/
theorem C6_distance_symm (lat1 lon1 lat2 lon2 : ℝ)
    (h1 : -90 ≤ lat1 ∧ lat1 ≤ 90) (h2 : -180 ≤ lon1 ∧ lon1 ≤ 180)
    (h3 : -90 ≤ lat2 ∧ lat2 ≤ 90) (h4 : -180 ≤ lon2 ∧ lon2 ≤ 180) :
    haversine_distance lat1 lon1 lat2 lon2 = haversine_distance lat2 lon2 lat1 lon1 :=
  haversine_comm lat1 lon1 lat2 lon2

/-- Claim C6 witness at two concrete Berlin points. -/
theorem C6_distance_symm_witness :
    ((-90 ≤ (52.52 : ℝ) ∧ (52.52 : ℝ) ≤ 90) ∧
        (-180 ≤ (13.405 : ℝ) ∧ (13.405 : ℝ) ≤ 180) ∧
        (-90 ≤ (52.5006 : ℝ) ∧ (52.5006 : ℝ) ≤ 90) ∧
        (-180 ≤ (13.4194 : ℝ) ∧ (13.4194 : ℝ) ≤ 180)) ∧
      haversine_distance 52.52 13.405 52.5006 13.4194 =
        haversine_distance 52.5006 13.4194 52.52 13.405 :=
  ⟨⟨⟨by norm_num, by norm_num⟩, ⟨by norm_num, by norm_num⟩,
      ⟨by norm_num, by norm_num⟩, ⟨by norm_num, by norm_num⟩⟩,
    C6_distance_symm 52.52 13.405 52.5006 13.4194
      ⟨by norm_num, by norm_num⟩ ⟨by norm_num, by norm_num⟩
      ⟨by norm_num, by norm_num⟩ ⟨by norm_num, by norm_num⟩⟩

/-- Claim C7: `get_coordinates` consults the geocoding collaborator only
at the input address with the fixed qualifier ", Berlin, Germany"
appended (two collaborators that agree on the qualified query give the
same result), and the qualified query is never the bare address. -/
theorem C7_qualified_query (g1 g2 : String → Except String (Option Location))
    (address : String)
    (h : g1 (address ++ ", Berlin, Germany") = g2 (address ++ ", Berlin, Germany")) :
    get_coordinates g1 address = get_coordinates g2 address ∧
      address ++ ", Berlin, Germany" ≠ address := by
  constructor
  · unfold get_coordinates
    rw [h]
  · intro hc
    have hlen := congrArg String.length hc
    rw [String.length_append] at hlen
    have h17 : (", Berlin, Germany" : String).length = 17 := rfl
    rw [h17] at hlen
    omega

/-- Claim C7 witness: a collaborator that only answers the qualified
query (and errors on everything else) behaves like one that always
answers, so only the qualified query is consulted. -/
theorem C7_qualified_query_witness :
    (get_coordinates (fun _ => Except.ok none) "Alexanderplatz 1" =
        get_coordinates
          (fun s => if s = "Alexanderplatz 1, Berlin, Germany" then Except.ok none
            else Except.error "unexpected query") "Alexanderplatz 1") ∧
      "Alexanderplatz 1" ++ ", Berlin, Germany" ≠ "Alexanderplatz 1" :=
  C7_qualified_query _ _ _ (by
    have h : ("Alexanderplatz 1" ++ ", Berlin, Germany" : String) =
        "Alexanderplatz 1, Berlin, Germany" := rfl
    rw [h, if_pos rfl])


/-- Claim C1: a candidate whose computed distance equals `radius` exactly
(amenity-tagged and properly named) is included; every candidate whose
computed distance exceeds `radius` contributes nothing wherever it
appears in the response; every candidate with no name tag contributes
nothing regardless of its distance; and in the three-candidate scenario
(boundary, beyond-radius, nameless) the output is exactly the boundary
POI. -/
theorem C1_radius_boundary_filtering (lat lon radius : ℝ) (n1 n2 n3 : Node)
    (ty nm : String)
    (h1a : n1.tags.lookup "amenity" = some ty)
    (h1n : n1.tags.lookup "name" = some nm)
    (h1s : nm ≠ "Unnamed POI")
    (h1d : haversine_distance lat lon n1.lat n1.lon = radius)
    (h2d : radius < haversine_distance lat lon n2.lat n2.lon)
    (h3n : n3.tags.lookup "name" = none)
    (pre post pre2 post2 : List Node) (far noname : Node)
    (hfar : radius < haversine_distance lat lon far.lat far.lon)
    (hnoname : noname.tags.lookup "name" = none) :
    find_points_of_interest lat lon radius (.ok [n1, n2, n3]) =
        [⟨nm, ty, n1.lat, n1.lon, round2 radius⟩] ∧
      find_points_of_interest lat lon radius (.ok (pre ++ far :: post)) =
        find_points_of_interest lat lon radius (.ok (pre ++ post)) ∧
      find_points_of_interest lat lon radius (.ok (pre2 ++ noname :: post2)) =
        find_points_of_interest lat lon radius (.ok (pre2 ++ post2)) := by
  have e1 : poiOf lat lon radius n1 = some ⟨nm, ty, n1.lat, n1.lon, round2 radius⟩ := by
    unfold poiOf
    rw [if_pos ⟨by rw [h1a]; rfl, le_of_eq h1d, by rw [h1n]; exact h1s⟩,
      h1a, h1n, h1d]
    rfl
  have e2 := poiOf_none_of_far lat lon radius n2 h2d
  have e3 := poiOf_none_of_no_name lat lon radius n3 h3n
  refine ⟨?_, find_ok_erase_of_poiOf_none lat lon radius pre post far
      (poiOf_none_of_far lat lon radius far hfar),
    find_ok_erase_of_poiOf_none lat lon radius pre2 post2 noname
      (poiOf_none_of_no_name lat lon radius noname hnoname)⟩
  simp [find_points_of_interest, processNodes_eq_filterMap, List.filterMap_cons, e1, e2, e3]

/-- Claim C1 witness: origin at null island with radius 0; the boundary
node sits at the origin (distance exactly 0), the far node 90 degrees
east (distance a quarter of the Earth circumference), the third node has
no name tag. -/
theorem C1_radius_boundary_filtering_witness :
    find_points_of_interest 0 0 0 (.ok
        [⟨0, 0, [("amenity", "cafe"), ("name", "Cafe X")]⟩,
         ⟨0, 90, [("amenity", "bank"), ("name", "Bank Y")]⟩,
         ⟨0, 0, [("amenity", "bench")]⟩]) =
      [⟨"Cafe X", "cafe", 0, 0, round2 0⟩] ∧
    find_points_of_interest 0 0 0
        (.ok ([] ++ ⟨0, 90, [("amenity", "bank"), ("name", "Bank Y")]⟩ :: [])) =
      find_points_of_interest 0 0 0 (.ok ([] ++ [])) ∧
    find_points_of_interest 0 0 0
        (.ok ([] ++ ⟨0, 0, [("amenity", "bench")]⟩ :: [])) =
      find_points_of_interest 0 0 0 (.ok ([] ++ [])) :=
  C1_radius_boundary_filtering 0 0 0
    ⟨0, 0, [("amenity", "cafe"), ("name", "Cafe X")]⟩
    ⟨0, 90, [("amenity", "bank"), ("name", "Bank Y")]⟩
    ⟨0, 0, [("amenity", "bench")]⟩
    "cafe" "Cafe X" rfl rfl (by decide) (haversine_self 0 0)
    haversine_zero_ninety_pos rfl [] [] [] []
    ⟨0, 90, [("amenity", "bank"), ("name", "Bank Y")]⟩
    ⟨0, 0, [("amenity", "bench")]⟩
    haversine_zero_ninety_pos rfl

/-- Claim C8: the output of `find_points_of_interest` is the
order-preserving `filterMap` of the per-candidate decision over the
collaborator's node list: surviving candidates appear in exactly the
relative order the collaborator returned them, with no re-sorting by
distance or any other key. -/
theorem C8_order_preserved (lat lon radius : ℝ) (nodes : List Node) :
    find_points_of_interest lat lon radius (.ok nodes) =
      nodes.filterMap (poiOf lat lon radius) :=
  processNodes_eq_filterMap lat lon radius nodes

/-- Claim C9 counterexample: the claim says the circle overlay radius
equals the radius_m used for the POI query for every value of radius_m,
not only the default 250; but `create_map` takes no radius parameter and
always draws the circle with radius 250, so for a query radius of 300
the claim fails: the drawn radius is 250 and 250 is not 300. -/
theorem C9_circle_radius_counterexample :
    (create_map 52.52 13.405 [] "Alexanderplatz 1").circles.map MapCircle.radius = [250] ∧
      (250 : ℝ) ≠ 300 :=
  ⟨rfl, by norm_num⟩

/-- Claim C9 (amended): `create_map` draws exactly one circle overlay
centered on the origin, but its radius is the hardcoded constant 250
regardless of the radius used for the POI query; it coincides with
radius_m only in the default case radius_m = 250, the only value `main`
ever uses. -/
theorem C9_circle_fixed_250 (lat lon : ℝ) (pois : List Poi) (address : String) :
    (create_map lat lon pois address).circles = [⟨(lat, lon), 250, "green", true, 0.1⟩] :=
  rfl

/-- Claim C10: a candidate within the radius whose name tag is present
and equal to the exact string "Unnamed POI" is excluded from the output,
because that string is also the internal sentinel for a missing name
tag: it contributes nothing wherever it appears in the response. -/
theorem C10_sentinel_named_node_excluded (lat lon radius : ℝ) (pre post : List Node)
    (n : Node)
    (hn : n.tags.lookup "name" = some "Unnamed POI")
    (hd : haversine_distance lat lon n.lat n.lon ≤ radius) :
    find_points_of_interest lat lon radius (.ok (pre ++ n :: post)) =
      find_points_of_interest lat lon radius (.ok (pre ++ post)) :=
  find_ok_erase_of_poiOf_none lat lon radius pre post n
    (poiOf_none_of_sentinel_name lat lon radius n hn)

/-- Claim C10 witness: a node at the origin (distance 0, within the
250 m radius) tagged amenity and named exactly "Unnamed POI" leaves the
output unchanged. -/
theorem C10_sentinel_named_node_excluded_witness :
    find_points_of_interest 0 0 250
        (.ok ([⟨0, 0, [("amenity", "bar"), ("name", "Bar Z")]⟩] ++
          ⟨0, 0, [("amenity", "cafe"), ("name", "Unnamed POI")]⟩ :: [])) =
      find_points_of_interest 0 0 250
        (.ok ([⟨0, 0, [("amenity", "bar"), ("name", "Bar Z")]⟩] ++ [])) :=
  C10_sentinel_named_node_excluded 0 0 250
    [⟨0, 0, [("amenity", "bar"), ("name", "Bar Z")]⟩] []
    ⟨0, 0, [("amenity", "cafe"), ("name", "Unnamed POI")]⟩
    rfl (by rw [haversine_self]; norm_num)
